import Mathlib

/-!
Verification of the connection-lifecycle and read-only-enforcement layer of
the `mongodb-mcp` server (`src/mongodb-client.ts`, class `MongoDBClient`).

The embedding below translates the observable state of a `MongoDBClient`
instance and its operations into pure Lean functions.  Asynchronous driver
behaviour (whether `client.connect()` resolves or rejects) is passed in as an
explicit `Except` outcome, and the value read from the process environment is
passed in as an `Option String`.  Thrown JavaScript errors are modelled as
`Except.error` carrying the error message; state mutations performed before a
throw are kept, matching JavaScript semantics.
-/

/-- A BSON-like value, enough structure to distinguish top-level keys of an
aggregation stage from data nested inside the stage's value (sub-documents,
sub-pipelines inside stages such as a lookup). -/
inductive BsonVal where
  | scalar (s : String)
  | doc (fields : List (String × BsonVal))
  | arr (elems : List BsonVal)

/-- An aggregation stage object: an ordered list of own fields, mirroring a
JavaScript object whose key order is insertion order (the order seen by
`Object.keys`). -/
abbrev Stage := List (String × BsonVal)

/-- The `dangerousStages` array from both `aggregate` wrappers in
`createReadonlyDatabaseProxy` and `createReadonlyCollectionProxy`. -/
def dangerousStages : List String := ["$out", "$merge"]

/-- `Object.keys(stage)[0]`: the first own key of a stage object, or `none`
for an empty object (JavaScript yields `undefined`). -/
def stageFirstKey (stage : Stage) : Option String :=
  (stage.map Prod.fst).head?

/-- The scan loop of the read-only `aggregate` wrapper: walk the pipeline in
order, look only at each stage's first own key, and return the first key that
is in `dangerousStages` (the JavaScript guard `stageName && ...` also demands
the key be truthy, hence the nonempty-string test). -/
def checkPipeline : List Stage → Option String
  | [] => none
  | stage :: rest =>
    match stageFirstKey stage with
    | some stageName =>
        if stageName ≠ "" ∧ stageName ∈ dangerousStages then some stageName
        else checkPipeline rest
    | none => checkPipeline rest

/-- Message of the error thrown when a dangerous stage is found. -/
def stageErrorMessage (stageName : String) : String :=
  "Aggregation stage \x27" ++ stageName ++ "\x27 is not allowed in read-only mode"

/-- The read-only `aggregate` wrapper (identical code in the database proxy
and the collection proxy): throw on the first dangerous stage, otherwise call
the original `aggregate` with the same pipeline and options. -/
def readonlyAggregate (pipeline : List Stage) (options : Option Stage) :
    Except String (List Stage × Option Stage) :=
  match checkPipeline pipeline with
  | some stageName => Except.error (stageErrorMessage stageName)
  | none => Except.ok (pipeline, options)

/-- The `writeOperations` blocklist of `createReadonlyDatabaseProxy`. -/
def writeOperations : List String :=
  ["addUser", "removeUser", "createCollection", "createIndex", "dropCollection",
   "dropIndex", "dropDatabase", "renameCollection", "updateOne", "updateMany",
   "replaceOne", "deleteOne", "deleteMany", "insertOne", "insertMany",
   "findOneAndReplace", "findOneAndUpdate", "findOneAndDelete",
   "bulkWrite"]

/-- Message of the error thrown by the blocked write methods. -/
def writeErrorMessage (prop : String) : String :=
  "Operation \x27" ++ prop ++ "\x27 is not allowed in read-only mode"

/-- Observable result of a property access through one of the read-only
proxies. -/
inductive ProxyResult where
  /-- the access yields a function that always throws `msg` -/
  | throwWrite (msg : String)
  /-- `collection(...)` wrapped to return a read-only collection proxy -/
  | readonlyCollection
  /-- `aggregate` wrapped with the pipeline check -/
  | checkedAggregate
  /-- the original method, bound to the target (forwarded to the driver) -/
  | bound (prop : String)
  /-- a non-function property, returned as is -/
  | value (prop : String)
  deriving DecidableEq

/-- The `get` trap of `createReadonlyDatabaseProxy`.  `isFunction` models
whether `target[prop]` is a function on the underlying driver object. -/
def readonlyDatabaseProxyGet (isFunction : Bool) (prop : String) : ProxyResult :=
  if prop ∈ writeOperations then ProxyResult.throwWrite (writeErrorMessage prop)
  else if isFunction then
    if prop = "collection" then ProxyResult.readonlyCollection
    else if prop = "aggregate" then ProxyResult.checkedAggregate
    else ProxyResult.bound prop
  else ProxyResult.value prop

/-- The `get` trap of `createReadonlyCollectionProxy`: only `aggregate` is
intercepted; every other function-valued property is bound to the target and
forwarded to the driver unchanged. -/
def readonlyCollectionProxyGet (isFunction : Bool) (prop : String) : ProxyResult :=
  if isFunction then
    if prop = "aggregate" then ProxyResult.checkedAggregate
    else ProxyResult.bound prop
  else ProxyResult.value prop

/-- The mutable fields of a `MongoDBClient` instance.  `clientPresent` models
`this.client !== null`. -/
structure ClientState where
  clientPresent : Bool
  isConnected : Bool
  connectionString : Option String
  readonlyMode : Bool
  disconnectReason : Option String
  connectionError : Option String
  deriving DecidableEq

/-- Field initializers of `MongoDBClient`. -/
def initialState : ClientState :=
  { clientPresent := false, isConnected := false, connectionString := none,
    readonlyMode := false, disconnectReason := none, connectionError := none }

/-- Default value of the `reason` parameter of `disconnect`. -/
def defaultDisconnectReason : String := "штатный disconnect"

/-- `setReadonlyMode(readonly)`. -/
def setReadonlyMode (readonly : Bool) (s : ClientState) : ClientState :=
  { s with readonlyMode := readonly }

/-- `disconnect(reason)`.  The returned `Bool` records whether
`client.close()` was called on the driver.  The guard is `if (this.client)`:
presence of the driver handle, not the connection phase. -/
def disconnect (reason : String) (s : ClientState) : ClientState × Bool :=
  if s.clientPresent then
    ({ s with
        clientPresent := false,
        isConnected := false,
        connectionString := none,
        disconnectReason := some reason,
        connectionError := none }, true)
  else
    (s, false)

/-- Message prefix of the error re-thrown by `connect` on failure. -/
def connectFailurePrefix : String := "Failed to connect to MongoDB: "

/-- Message of the error thrown by `connect` when no connection string is
available in the environment. -/
def missingConnStringMessage : String :=
  "Connection string is required. Please set MONGODB_MCP_CONNECTION_STRING environment variable."

/-- `connect(readonlyMode)`.  `envConn` is the value of
`process.env.MONGODB_MCP_CONNECTION_STRING`; `outcome` is whether the driver's
`client.connect()` resolves or rejects (with the cause's message).  On the
failure path the mutations already performed (the implicit disconnect and the
assignment of the fresh `MongoClient`) persist, and `connectionError` records
the cause before the wrapped error is thrown. -/
def connect (envConn : Option String) (outcome : Except String Unit) (rm : Bool)
    (s : ClientState) : ClientState × Except String Unit :=
  match envConn with
  | none => (s, Except.error missingConnStringMessage)
  | some connString =>
    let s1 := if s.isConnected && s.clientPresent then (disconnect defaultDisconnectReason s).1 else s
    let s2 := { s1 with clientPresent := true }
    match outcome with
    | Except.ok _ =>
        ({ s2 with
            connectionString := some connString,
            isConnected := true,
            disconnectReason := none,
            connectionError := none,
            readonlyMode := rm },
         Except.ok ())
    | Except.error e =>
        ({ s2 with connectionError := some e },
         Except.error (connectFailurePrefix ++ e))

/-- The `serverClosed` listener attached in `connect`. -/
def onServerClosed (s : ClientState) : ClientState :=
  if s.isConnected then
    { s with
        isConnected := false,
        connectionError := some "MongoDB server closed connection",
        disconnectReason := some "server closed connection" }
  else s

/-- The `serverHeartbeatFailed` listener attached in `connect`: it records the
fault but does not change `isConnected`. -/
def onServerHeartbeatFailed (s : ClientState) : ClientState :=
  if s.isConnected then
    { s with
        connectionError := some "MongoDB heartbeat failed - connection lost",
        disconnectReason := some "heartbeat failed" }
  else s

/-- The `connectionClosed` listener attached in `connect`. -/
def onConnectionClosed (s : ClientState) : ClientState :=
  if s.isConnected then
    { s with
        isConnected := false,
        connectionError := some "MongoDB connection closed",
        disconnectReason := some "connection closed" }
  else s

/-- The generic `error` listener attached in `connect`; `msg` is the message
of the error delivered by the driver. -/
def onError (msg : String) (s : ClientState) : ClientState :=
  if s.isConnected then
    { s with
        isConnected := false,
        connectionError := some msg,
        disconnectReason := some "connection error" }
  else s

/-- Message of the error thrown by `getClient` and `getDatabase` when not
connected. -/
def notConnectedMessage : String := "Not connected to MongoDB. Please connect first."

/-- `getClient()`: fail fast when not connected, first setting
`connectionError` with `??=` (only when it is currently unset).  The
"additional check" block in the source is a no-op `if` inside a `try` whose
body cannot throw, so it has no observable effect. -/
def getClient (s : ClientState) : ClientState × Except String Unit :=
  if s.isConnected && s.clientPresent then (s, Except.ok ())
  else
    let s1 := { s with
      connectionError :=
        match s.connectionError with
        | some e => some e
        | none => some notConnectedMessage }
    (s1, Except.error notConnectedMessage)

/-- The kind of handle returned by `getDatabase`. -/
inductive DbHandle where
  | plainDb (name : String)
  | readonlyDbProxy (name : String)
  deriving DecidableEq

/-- `getDatabase(databaseName)`: same fail-fast check as `getClient`, then the
handle is wrapped in the read-only proxy exactly when the current value of
`this.readonlyMode` is true at call time. -/
def getDatabase (databaseName : String) (s : ClientState) :
    ClientState × Except String DbHandle :=
  if s.isConnected && s.clientPresent then
    (s, Except.ok (if s.readonlyMode then DbHandle.readonlyDbProxy databaseName
                   else DbHandle.plainDb databaseName))
  else
    let s1 := { s with
      connectionError :=
        match s.connectionError with
        | some e => some e
        | none => some notConnectedMessage }
    (s1, Except.error notConnectedMessage)

/-- Events that can change the client state: caller-invoked lifecycle methods
and the asynchronous health-monitor listeners. -/
inductive ClientEvent where
  | connectEv (envConn : Option String) (outcome : Except String Unit) (rm : Bool)
  | disconnectEv (reason : String)
  | serverClosedEv
  | heartbeatFailedEv
  | connectionClosedEv
  | errorEv (msg : String)

/-- State transition of a single event (thrown errors discarded; the state
mutations performed before a throw persist). -/
def step (e : ClientEvent) (s : ClientState) : ClientState :=
  match e with
  | ClientEvent.connectEv env oc rm => (connect env oc rm s).1
  | ClientEvent.disconnectEv r => (disconnect r s).1
  | ClientEvent.serverClosedEv => onServerClosed s
  | ClientEvent.heartbeatFailedEv => onServerHeartbeatFailed s
  | ClientEvent.connectionClosedEv => onConnectionClosed s
  | ClientEvent.errorEv m => onError m s

/-- Run a sequence of events from a state. -/
def runEvents (evs : List ClientEvent) (s : ClientState) : ClientState :=
  evs.foldl (fun t e => step e t) s

/-- Caller-invoked lifecycle events (connect/disconnect), as opposed to the
asynchronous health-monitor events. -/
def isLifecycleEvent : ClientEvent → Bool
  | ClientEvent.connectEv _ _ _ => true
  | ClientEvent.disconnectEv _ => true
  | _ => false

/-- A sample state of a successfully connected client, used to instantiate
theorems with hypotheses. -/
def connectedSample : ClientState :=
  { clientPresent := true, isConnected := true, connectionString := some "mongodb://h",
    readonlyMode := false, disconnectReason := none, connectionError := none }

lemma dangerous_cond_iff (k : String) :
    (k ≠ "" ∧ k ∈ dangerousStages) ↔ (k = "$out" ∨ k = "$merge") := by
  constructor
  · rintro ⟨-, hmem⟩
    simpa [dangerousStages] using hmem
  · rintro (rfl | rfl)
    · exact ⟨by decide, by simp [dangerousStages]⟩
    · exact ⟨by decide, by simp [dangerousStages]⟩

lemma checkPipeline_cons_safe (s : Stage) (rest : List Stage)
    (h1 : stageFirstKey s ≠ some "$out") (h2 : stageFirstKey s ≠ some "$merge") :
    checkPipeline (s :: rest) = checkPipeline rest := by
  cases hk : stageFirstKey s with
  | none => simp [checkPipeline, hk]
  | some k =>
    have hnd : ¬(k ≠ "" ∧ k ∈ dangerousStages) := by
      rw [dangerous_cond_iff]
      rintro (rfl | rfl)
      · exact h1 hk
      · exact h2 hk
    simp [checkPipeline, hk, hnd]

lemma checkPipeline_cons_dangerous (s : Stage) (rest : List Stage) (k : String)
    (hk : stageFirstKey s = some k) (hd : k = "$out" ∨ k = "$merge") :
    checkPipeline (s :: rest) = some k := by
  have hc : (k ≠ "" ∧ k ∈ dangerousStages) := (dangerous_cond_iff k).2 hd
  simp [checkPipeline, hk, hc]

lemma checkPipeline_eq_none_iff (p : List Stage) :
    checkPipeline p = none ↔
      ∀ s ∈ p, stageFirstKey s ≠ some "$out" ∧ stageFirstKey s ≠ some "$merge" := by
  induction p with
  | nil => simp [checkPipeline]
  | cons s rest ih =>
    by_cases h1 : stageFirstKey s = some "$out"
    · rw [checkPipeline_cons_dangerous s rest _ h1 (Or.inl rfl)]
      constructor
      · intro h; simp at h
      · intro h; exact absurd h1 (h s (List.mem_cons_self s rest)).1
    · by_cases h2 : stageFirstKey s = some "$merge"
      · rw [checkPipeline_cons_dangerous s rest _ h2 (Or.inr rfl)]
        constructor
        · intro h; simp at h
        · intro h; exact absurd h2 (h s (List.mem_cons_self s rest)).2
      · rw [checkPipeline_cons_safe s rest h1 h2, ih]
        constructor
        · rintro h t ht
          rcases List.mem_cons.mp ht with rfl | ht
          · exact ⟨h1, h2⟩
          · exact h t ht
        · intro h t ht
          exact h t (List.mem_cons_of_mem _ ht)

lemma checkPipeline_ne_none_iff (p : List Stage) :
    checkPipeline p ≠ none ↔
      ∃ s ∈ p, stageFirstKey s = some "$out" ∨ stageFirstKey s = some "$merge" := by
  rw [Ne, checkPipeline_eq_none_iff]
  push_neg
  constructor
  · rintro ⟨s, hs, h⟩
    exact ⟨s, hs, by tauto⟩
  · rintro ⟨s, hs, h⟩
    exact ⟨s, hs, by tauto⟩

lemma checkPipeline_congr : ∀ (p q : List Stage),
    p.map stageFirstKey = q.map stageFirstKey → checkPipeline p = checkPipeline q := by
  intro p
  induction p with
  | nil =>
    intro q h
    cases q with
    | nil => rfl
    | cons t ts => simp at h
  | cons s rest ih =>
    intro q h
    cases q with
    | nil => simp at h
    | cons t ts =>
      simp only [List.map_cons, List.cons.injEq] at h
      obtain ⟨hfk, hrest⟩ := h
      have hr := ih ts hrest
      cases hk : stageFirstKey t with
      | none => simp [checkPipeline, hfk.trans hk, hk, hr]
      | some k => simp [checkPipeline, hfk.trans hk, hk, hr]

lemma checkPipeline_append_dangerous (p1 : List Stage) (s : Stage) (p2 : List Stage)
    (k : String)
    (hsafe : ∀ t ∈ p1, stageFirstKey t ≠ some "$out" ∧ stageFirstKey t ≠ some "$merge")
    (hk : stageFirstKey s = some k) (hd : k = "$out" ∨ k = "$merge") :
    checkPipeline (p1 ++ s :: p2) = some k := by
  induction p1 with
  | nil => simpa using checkPipeline_cons_dangerous s p2 k hk hd
  | cons t ts ih =>
    have ht := hsafe t (List.mem_cons_self t ts)
    rw [List.cons_append, checkPipeline_cons_safe t _ ht.1 ht.2]
    exact ih (fun u hu => hsafe u (List.mem_cons_of_mem t hu))

lemma readonlyAggregate_ok (p : List Stage) (o : Option Stage)
    (h : checkPipeline p = none) : readonlyAggregate p o = Except.ok (p, o) := by
  simp [readonlyAggregate, h]

lemma readonlyAggregate_error_iff (p : List Stage) (o : Option Stage) :
    (∃ m, readonlyAggregate p o = Except.error m) ↔ checkPipeline p ≠ none := by
  unfold readonlyAggregate
  cases h : checkPipeline p with
  | none => simp
  | some k => simp

/-- Claim C2: on a read-only handle, an aggregate call is rejected if and only
if some top-level stage's name (its first own key) is one of the dangerous
stages; the rejection names the first such stage in pipeline order regardless
of what follows it; an empty pipeline always passes; and a passing pipeline is
forwarded to the original aggregate unchanged, with the same options. -/
theorem aggregate_readonly_guard (p : List Stage) (o : Option Stage) :
    ((∃ m, readonlyAggregate p o = Except.error m) ↔
       ∃ s ∈ p, stageFirstKey s = some "$out" ∨ stageFirstKey s = some "$merge")
    ∧ (∀ (p1 : List Stage) (s : Stage) (p2 : List Stage) (k : String),
        p = p1 ++ s :: p2 →
        (∀ t ∈ p1, stageFirstKey t ≠ some "$out" ∧ stageFirstKey t ≠ some "$merge") →
        stageFirstKey s = some k → (k = "$out" ∨ k = "$merge") →
        readonlyAggregate p o = Except.error (stageErrorMessage k))
    ∧ readonlyAggregate ([] : List Stage) o = Except.ok ([], o)
    ∧ (checkPipeline p = none → readonlyAggregate p o = Except.ok (p, o)) := by
  refine ⟨?_, ?_, rfl, readonlyAggregate_ok p o⟩
  · rw [readonlyAggregate_error_iff, checkPipeline_ne_none_iff]
  · rintro p1 s p2 k rfl hsafe hk hd
    have hc := checkPipeline_append_dangerous p1 s p2 k hsafe hk hd
    simp [readonlyAggregate, hc]

/-- Witness for C2: the pipeline `[{$match: a}, {$out: x}]` is rejected with
the message naming `$out`, at a concrete input. -/
theorem aggregate_readonly_guard_witness :
    readonlyAggregate [[("$match", BsonVal.scalar "a")], [("$out", BsonVal.scalar "x")]] none
      = Except.error (stageErrorMessage "$out") :=
  (aggregate_readonly_guard _ none).2.1 [[("$match", BsonVal.scalar "a")]]
    [("$out", BsonVal.scalar "x")] [] "$out" rfl (by decide) rfl (Or.inl rfl)

/-- Claim C3: the stage check inspects only the first own key of each stage
object: a stage whose first key is not dangerous is skipped no matter what its
later keys are, a stage that is an empty object is skipped entirely, the
verdict depends only on the sequence of first keys, and such pipelines are
forwarded to the driver. -/
theorem aggregate_first_key_only (s : Stage) (rest : List Stage) (o : Option Stage) :
    (stageFirstKey s ≠ some "$out" ∧ stageFirstKey s ≠ some "$merge" →
       checkPipeline (s :: rest) = checkPipeline rest)
    ∧ checkPipeline (([] : Stage) :: rest) = checkPipeline rest
    ∧ (stageFirstKey s ≠ some "$out" → stageFirstKey s ≠ some "$merge" →
        checkPipeline rest = none →
        readonlyAggregate (s :: rest) o = Except.ok (s :: rest, o))
    ∧ (∀ q : List Stage, (s :: rest).map stageFirstKey = q.map stageFirstKey →
        checkPipeline (s :: rest) = checkPipeline q) := by
  refine ⟨fun h => checkPipeline_cons_safe s rest h.1 h.2, ?_, ?_, ?_⟩
  · simp [checkPipeline, stageFirstKey]
  · intro h1 h2 hrest
    apply readonlyAggregate_ok
    rw [checkPipeline_cons_safe s rest h1 h2]
    exact hrest
  · intro q hq
    exact checkPipeline_congr _ q hq

/-- Witness for C3: a stage that lists `$out` as its second key, after
`$match`, passes the check and is forwarded, and an empty-object stage is
skipped, at concrete inputs. -/
theorem aggregate_first_key_only_witness :
    readonlyAggregate [[("$match", BsonVal.scalar "a"), ("$out", BsonVal.scalar "x")]] none
      = Except.ok ([[("$match", BsonVal.scalar "a"), ("$out", BsonVal.scalar "x")]], none)
    ∧ checkPipeline [([] : Stage)] = checkPipeline ([] : List Stage) :=
  ⟨(aggregate_first_key_only [("$match", BsonVal.scalar "a"), ("$out", BsonVal.scalar "x")]
      [] none).2.2.1 (by decide) (by decide) rfl,
   (aggregate_first_key_only [("$match", BsonVal.scalar "a")] [] none).2.1⟩

/-- Claim C1 (amended): only the database-level proxy carries the write
blocklist — every name in `writeOperations` accessed on the read-only database
proxy yields a function that throws the violation message naming it, and
`collection(name)` returns a read-only collection proxy — but that nested
collection proxy intercepts only `aggregate`: every other function-valued
property, write methods included, is bound to the target and forwarded to the
driver. -/
theorem readonly_scope_db_vs_collection (isFunc : Bool) (prop : String) :
    (prop ∈ writeOperations →
       readonlyDatabaseProxyGet isFunc prop = ProxyResult.throwWrite (writeErrorMessage prop))
    ∧ readonlyDatabaseProxyGet true "collection" = ProxyResult.readonlyCollection
    ∧ readonlyCollectionProxyGet true "aggregate" = ProxyResult.checkedAggregate
    ∧ (prop ≠ "aggregate" → readonlyCollectionProxyGet true prop = ProxyResult.bound prop) := by
  refine ⟨?_, by decide, by decide, ?_⟩
  · intro h
    simp [readonlyDatabaseProxyGet, h]
  · intro h
    simp [readonlyCollectionProxyGet, h]

/-- Witness for C1 (amended): `updateOne` on the database proxy throws, while
`find` on the nested collection proxy is forwarded. -/
theorem readonly_scope_db_vs_collection_witness :
    readonlyDatabaseProxyGet true "updateOne" = ProxyResult.throwWrite (writeErrorMessage "updateOne")
    ∧ readonlyCollectionProxyGet true "find" = ProxyResult.bound "find" :=
  ⟨(readonly_scope_db_vs_collection true "updateOne").1 (by decide),
   (readonly_scope_db_vs_collection true "find").2.2.2 (by decide)⟩

/-- Counterexample to C1 as stated: `insertOne` — a write-operation name that
the database-level blocklist does block — is forwarded (bound to the target)
by the nested read-only collection proxy instead of throwing. -/
theorem collection_write_forwarded_counterexample :
    readonlyCollectionProxyGet true "insertOne" = ProxyResult.bound "insertOne"
    ∧ readonlyCollectionProxyGet true "insertOne"
        ≠ ProxyResult.throwWrite (writeErrorMessage "insertOne")
    ∧ "insertOne" ∈ writeOperations := by
  refine ⟨by decide, by decide, by decide⟩

/-- Claim C4: while `isConnected` is true, the heartbeat-failure listener
records the fault and the reason "heartbeat failed" but leaves the phase
connected, whereas the server-closed, connection-closed and generic error
listeners flip the phase to disconnected with their respective reasons; every
listener is a no-op once `isConnected` is false. -/
theorem health_monitor_handlers (s : ClientState) (msg : String) :
    (s.isConnected = true →
        onServerHeartbeatFailed s
          = { s with
              connectionError := some "MongoDB heartbeat failed - connection lost",
              disconnectReason := some "heartbeat failed" }
      ∧ (onServerHeartbeatFailed s).isConnected = true
      ∧ onServerClosed s
          = { s with
              isConnected := false,
              connectionError := some "MongoDB server closed connection",
              disconnectReason := some "server closed connection" }
      ∧ onConnectionClosed s
          = { s with
              isConnected := false,
              connectionError := some "MongoDB connection closed",
              disconnectReason := some "connection closed" }
      ∧ onError msg s
          = { s with
              isConnected := false,
              connectionError := some msg,
              disconnectReason := some "connection error" })
    ∧ (s.isConnected = false →
        onServerHeartbeatFailed s = s ∧ onServerClosed s = s
        ∧ onConnectionClosed s = s ∧ onError msg s = s) := by
  cases h : s.isConnected <;>
    simp [onServerHeartbeatFailed, onServerClosed, onConnectionClosed, onError, h]

/-- Witness for C4: on a concrete connected state, the heartbeat listener
leaves the phase connected while the server-closed listener flips it. -/
theorem health_monitor_handlers_witness :
    (onServerHeartbeatFailed connectedSample).isConnected = true
    ∧ onServerClosed connectedSample
        = { connectedSample with
            isConnected := false,
            connectionError := some "MongoDB server closed connection",
            disconnectReason := some "server closed connection" } :=
  ⟨((health_monitor_handlers connectedSample "x").1 rfl).2.1,
   ((health_monitor_handlers connectedSample "x").1 rfl).2.2.1⟩

/-- The connection-target/phase invariant together with the auxiliary fact
that a connected client always holds a driver handle. -/
def targetPhaseInv (s : ClientState) : Prop :=
  (s.connectionString ≠ none ↔ s.isConnected = true)
  ∧ (s.isConnected = true → s.clientPresent = true)

lemma step_lifecycle_preserves (e : ClientEvent) (s : ClientState)
    (he : isLifecycleEvent e = true) (hs : targetPhaseInv s) :
    targetPhaseInv (step e s) := by
  cases e with
  | connectEv env oc rm =>
    cases env with
    | none => simpa [step, connect] using hs
    | some cs =>
      cases oc with
      | ok u =>
        cases u
        by_cases hb : s.isConnected && s.clientPresent <;>
          simp [step, connect, disconnect, hb, targetPhaseInv]
      | error e' =>
        obtain ⟨h1, h2⟩ := hs
        by_cases hb : s.isConnected && s.clientPresent
        · rw [Bool.and_eq_true] at hb
          simp [step, connect, disconnect, hb.1, hb.2, targetPhaseInv]
        · simp only [step, connect, if_neg hb]
          exact ⟨by simpa using h1, fun _ => rfl⟩
  | disconnectEv r =>
    by_cases hb : s.clientPresent <;>
      simp [step, disconnect, hb, targetPhaseInv] at *
    tauto
  | serverClosedEv => simp [isLifecycleEvent] at he
  | heartbeatFailedEv => simp [isLifecycleEvent] at he
  | connectionClosedEv => simp [isLifecycleEvent] at he
  | errorEv m => simp [isLifecycleEvent] at he

lemma runEvents_lifecycle_inv (evs : List ClientEvent) :
    ∀ s : ClientState, (∀ e ∈ evs, isLifecycleEvent e = true) → targetPhaseInv s →
      targetPhaseInv (runEvents evs s) := by
  induction evs with
  | nil =>
    intro s _ hs
    simpa [runEvents] using hs
  | cons e rest ih =>
    intro s h hs
    have h1 : isLifecycleEvent e = true := h e (List.mem_cons_self e rest)
    have h2 : ∀ x ∈ rest, isLifecycleEvent x = true :=
      fun x hx => h x (List.mem_cons_of_mem e hx)
    have hstep : runEvents (e :: rest) s = runEvents rest (step e s) := by
      simp [runEvents]
    rw [hstep]
    exact ih (step e s) h2 (step_lifecycle_preserves e s h1 hs)

/-- Claim C5 (amended): in every state reachable from the initial state by
caller-invoked lifecycle events alone (connect and disconnect, in any
interleaving), the stored connection string is non-null exactly when the phase
is connected; the asynchronous health-monitor events break this equivalence,
as the counterexample shows. -/
theorem connection_target_iff_connected_lifecycle (evs : List ClientEvent)
    (h : ∀ e ∈ evs, isLifecycleEvent e = true) :
    ((runEvents evs initialState).connectionString ≠ none ↔
       (runEvents evs initialState).isConnected = true) :=
  (runEvents_lifecycle_inv evs initialState h
    (by simp [targetPhaseInv, initialState])).1

/-- Witness for C5 (amended): a concrete connect-then-disconnect run satisfies
the equivalence. -/
theorem connection_target_iff_connected_lifecycle_witness :
    ((runEvents [ClientEvent.connectEv (some "mongodb://h") (Except.ok ()) true,
                 ClientEvent.disconnectEv "bye"] initialState).connectionString ≠ none ↔
       (runEvents [ClientEvent.connectEv (some "mongodb://h") (Except.ok ()) true,
                   ClientEvent.disconnectEv "bye"] initialState).isConnected = true) :=
  connection_target_iff_connected_lifecycle
    [ClientEvent.connectEv (some "mongodb://h") (Except.ok ()) true,
     ClientEvent.disconnectEv "bye"] (by decide)

/-- Counterexample to C5 as stated: after a successful connect, a
server-closed health event flips the phase to disconnected yet leaves the
stored connection string non-null, so the claimed equivalence fails on this
reachable state. -/
theorem connection_target_health_counterexample :
    (runEvents [ClientEvent.connectEv (some "mongodb://h") (Except.ok ()) true,
                ClientEvent.serverClosedEv] initialState).isConnected = false
    ∧ (runEvents [ClientEvent.connectEv (some "mongodb://h") (Except.ok ()) true,
                  ClientEvent.serverClosedEv] initialState).connectionString
        = some "mongodb://h" :=
  ⟨rfl, rfl⟩

/-- Claim C6: whenever the phase is not connected, `getClient` and
`getDatabase` throw the not-connected error, and they populate
`connectionError` with that standard message only when no fault is already
recorded — an existing fault is never overwritten. -/
theorem not_connected_fail_fast (s : ClientState) (dbName : String)
    (h : s.isConnected = false) :
    (getClient s).2 = Except.error notConnectedMessage
    ∧ (getDatabase dbName s).2 = Except.error notConnectedMessage
    ∧ (s.connectionError = none →
        (getClient s).1.connectionError = some notConnectedMessage
        ∧ (getDatabase dbName s).1.connectionError = some notConnectedMessage)
    ∧ (∀ e, s.connectionError = some e →
        (getClient s).1.connectionError = some e
        ∧ (getDatabase dbName s).1.connectionError = some e) := by
  refine ⟨by simp [getClient, h], by simp [getDatabase, h], ?_, ?_⟩
  · intro he
    constructor <;> simp [getClient, getDatabase, h, he]
  · intro e he
    constructor <;> simp [getClient, getDatabase, h, he]

/-- Witness for C6: on a concrete disconnected state with no recorded fault,
`getClient` throws and records the standard message; on one with a recorded
fault, the fault is preserved. -/
theorem not_connected_fail_fast_witness :
    (getClient initialState).2 = Except.error notConnectedMessage
    ∧ (getClient initialState).1.connectionError = some notConnectedMessage
    ∧ (getClient { initialState with connectionError := some "boom" }).1.connectionError
        = some "boom" :=
  ⟨(not_connected_fail_fast initialState "d" rfl).1,
   ((not_connected_fail_fast initialState "d" rfl).2.2.1 rfl).1,
   ((not_connected_fail_fast { initialState with connectionError := some "boom" }
      "d" rfl).2.2.2 "boom" rfl).1⟩

/-- Claim C7: `connect` on success sets the phase connected, stores the
connection string and the read-only flag, and clears both the disconnect
reason and the recorded error; on failure it records the cause in
`connectionError`, leaves the phase disconnected, and raises the wrapped
connection error; a subsequent successful connect after a failed one clears
the recorded error. -/
theorem connect_success_failure (cs e : String) (rm : Bool) (s : ClientState)
    (h : s.isConnected = true → s.clientPresent = true) :
    ((connect (some cs) (Except.ok ()) rm s).1.isConnected = true
      ∧ (connect (some cs) (Except.ok ()) rm s).1.connectionString = some cs
      ∧ (connect (some cs) (Except.ok ()) rm s).1.disconnectReason = none
      ∧ (connect (some cs) (Except.ok ()) rm s).1.connectionError = none
      ∧ (connect (some cs) (Except.ok ()) rm s).1.readonlyMode = rm
      ∧ (connect (some cs) (Except.ok ()) rm s).2 = Except.ok ())
    ∧ ((connect (some cs) (Except.error e) rm s).1.connectionError = some e
      ∧ (connect (some cs) (Except.error e) rm s).1.isConnected = false
      ∧ (connect (some cs) (Except.error e) rm s).2
          = Except.error (connectFailurePrefix ++ e))
    ∧ (connect (some cs) (Except.ok ()) rm
         ((connect (some cs) (Except.error e) rm s).1)).1.connectionError = none := by
  have hsc : s.isConnected = false ∨ (s.isConnected = true ∧ s.clientPresent = true) := by
    cases hic : s.isConnected
    · exact Or.inl rfl
    · exact Or.inr ⟨rfl, h hic⟩
  rcases hsc with hic | ⟨hic, hcp⟩
  · simp [connect, disconnect, hic]
  · simp [connect, disconnect, hic, hcp]

/-- Witness for C7: from the initial state, a successful connect turns the
phase connected, and a failed connect records its cause. -/
theorem connect_success_failure_witness :
    (connect (some "mongodb://h") (Except.ok ()) true initialState).1.isConnected = true
    ∧ (connect (some "mongodb://h") (Except.error "boom") true initialState).1.connectionError
        = some "boom" :=
  ⟨(connect_success_failure "mongodb://h" "boom" true initialState (by decide)).1.1,
   (connect_success_failure "mongodb://h" "boom" true initialState (by decide)).2.1.1⟩

/-- Claim C8 (amended): `disconnect` is guarded by the presence of the driver
handle, not by the phase: it is a no-op exactly when the handle is null (in
particular the second of two consecutive disconnects is a no-op with no second
close), and whenever the handle is present — even if the phase is already
disconnected — it closes the driver, sets the phase disconnected, nulls the
connection string, records the given reason and clears the recorded error. -/
theorem disconnect_guard_on_handle (r r2 : String) (s : ClientState) :
    (s.clientPresent = false → disconnect r s = (s, false))
    ∧ (s.clientPresent = true →
        disconnect r s = ({ s with
            clientPresent := false,
            isConnected := false,
            connectionString := none,
            disconnectReason := some r,
            connectionError := none }, true))
    ∧ disconnect r2 (disconnect r s).1 = ((disconnect r s).1, false) := by
  refine ⟨?_, ?_, ?_⟩
  · intro h
    simp [disconnect, h]
  · intro h
    simp [disconnect, h]
  · by_cases h : s.clientPresent <;> simp [disconnect, h]

/-- Witness for C8 (amended): on a concrete connected state a disconnect
closes and resets; a second disconnect right after is a no-op. -/
theorem disconnect_guard_on_handle_witness :
    disconnect "bye" connectedSample
      = ({ connectedSample with
          clientPresent := false,
          isConnected := false,
          connectionString := none,
          disconnectReason := some "bye",
          connectionError := none }, true)
    ∧ disconnect "again" (disconnect "bye" connectedSample).1
        = ((disconnect "bye" connectedSample).1, false) :=
  ⟨(disconnect_guard_on_handle "bye" "again" connectedSample).2.1 rfl,
   (disconnect_guard_on_handle "bye" "again" connectedSample).2.2⟩

/-- Counterexample to C8 as stated: after a failed connect the phase is
already disconnected, yet `disconnect` is not a no-op — it issues a close call
to the driver and changes the state (it records the reason and clears the
recorded fault). -/
theorem disconnect_noop_counterexample :
    (connect (some "mongodb://h") (Except.error "boom") true initialState).1.isConnected = false
    ∧ (disconnect defaultDisconnectReason
        (connect (some "mongodb://h") (Except.error "boom") true initialState).1).2 = true
    ∧ (disconnect defaultDisconnectReason
        (connect (some "mongodb://h") (Except.error "boom") true initialState).1).1
      ≠ (connect (some "mongodb://h") (Except.error "boom") true initialState).1 := by
  refine ⟨rfl, rfl, by decide⟩

/-- Claim C9: for every connect-then-disconnect sequence the phase ends
disconnected, the connection string is null and the recorded reason is the
one passed; but the default reason baked into the code is the string
"штатный disconnect", not "normal disconnect" as the specification and the
repository's own unit test expect. -/
theorem default_disconnect_reason_mismatch (cs r : String) (rm : Bool) :
    ((disconnect r ((connect (some cs) (Except.ok ()) rm initialState).1)).1.isConnected = false
      ∧ (disconnect r ((connect (some cs) (Except.ok ()) rm initialState).1)).1.connectionString = none
      ∧ (disconnect r ((connect (some cs) (Except.ok ()) rm initialState).1)).1.disconnectReason = some r)
    ∧ defaultDisconnectReason = "штатный disconnect"
    ∧ defaultDisconnectReason ≠ "normal disconnect" := by
  refine ⟨⟨?_, ?_, ?_⟩, rfl, by decide⟩
  all_goals simp [connect, disconnect, initialState]

/-- Claim C10 (amended): `setReadonlyMode` leaves the live connection state
untouched but takes effect at the very next `getDatabase` call of the same
connection — the wrapping decision reads the current flag at call time, it is
not snapshotted at connect time. -/
theorem readonly_takes_effect_at_getDatabase (s : ClientState) (dbName : String) (b : Bool)
    (h1 : s.isConnected = true) (h2 : s.clientPresent = true) :
    (getDatabase dbName (setReadonlyMode b s)).2
        = Except.ok (if b then DbHandle.readonlyDbProxy dbName else DbHandle.plainDb dbName)
    ∧ (setReadonlyMode b s).isConnected = s.isConnected
    ∧ (setReadonlyMode b s).connectionString = s.connectionString
    ∧ (setReadonlyMode b s).readonlyMode = b := by
  refine ⟨?_, rfl, rfl, rfl⟩
  simp [getDatabase, setReadonlyMode, h1, h2]

/-- Witness for C10 (amended): on a concrete connected state, flipping the
flag to true makes the next `getDatabase` return the read-only proxy. -/
theorem readonly_takes_effect_at_getDatabase_witness :
    (getDatabase "d" (setReadonlyMode true connectedSample)).2
      = Except.ok (DbHandle.readonlyDbProxy "d") := by
  have h := (readonly_takes_effect_at_getDatabase connectedSample "d" true rfl rfl).1
  simpa using h

/-- Counterexample to C10 as stated: connect with read-only false, then flip
the flag with `setReadonlyMode true` — without any new connect the very next
`getDatabase` on the same live connection already returns the wrapped
read-only handle, so the policy is not immutable for the connection's
lifetime. -/
theorem readonly_snapshot_counterexample :
    (getDatabase "d" ((connect (some "mongodb://h") (Except.ok ()) false initialState).1)).2
      = Except.ok (DbHandle.plainDb "d")
    ∧ (getDatabase "d" (setReadonlyMode true
        ((connect (some "mongodb://h") (Except.ok ()) false initialState).1))).2
      = Except.ok (DbHandle.readonlyDbProxy "d") :=
  ⟨rfl, rfl⟩
